import Mathlib

/-!
Shallow embedding of the auth-proxy application (src/src/app.js) and proofs
about its authentication, authorization, route matching, index building and
hot-reload behaviour.  JavaScript objects used as string-keyed maps are
modelled as association lists with own-property lookup; JS truthiness of the
optional fields involved is modelled explicitly.
-/

set_option synthInstance.maxSize 512

namespace AuthProxy

/-- Association-list lookup, modelling a JS own-property read on an object
used as a string-keyed map. -/
def alookup {α : Type} : List (String × α) → String → Option α
  | [], _ => none
  | (k, v) :: rest, key => if k = key then some v else alookup rest key

/-- Association-list update, modelling a JS property assignment on an object
used as a string-keyed map (overwrites in place, appends when absent). -/
def aset {α : Type} : List (String × α) → String → α → List (String × α)
  | [], key, v => [(key, v)]
  | (k, w) :: rest, key, v =>
      if k = key then (key, v) :: rest else (k, w) :: aset rest key v

/-- JS truthiness of an optional boolean field (undefined and false are falsy). -/
def truthyB (b : Option Bool) : Bool := b.getD false

/-- JS truthiness of a nullable number (null and 0 are falsy). -/
def truthyNum (n : Option Nat) : Bool :=
  match n with
  | none => false
  | some k => k != 0

/-- Grant record from roles.yaml: a resource plus an optional methods list
(absent methods means the wildcard entry is written). -/
structure Grant where
  resource : String
  methods : Option (List String)
deriving Repr, DecidableEq

/-- Role record from roles.yaml. -/
structure Role where
  name : String
  grants : List Grant
deriving Repr, DecidableEq

/-- User record from users.yaml; `roles` and `admin` are optional fields. -/
structure User where
  name : String
  roles : Option (List String)
  admin : Option Bool
deriving Repr, DecidableEq

/-- Token record from tokens.yaml. -/
structure Token where
  token : String
  user : String
deriving Repr, DecidableEq

/-- The `proxy` object of a route. -/
structure RouteProxy where
  target : String
deriving Repr, DecidableEq

/-- Route record from routes.yaml; `methods`, `hosts` and `anonymous` are
optional fields. -/
structure Route where
  path : String
  methods : Option (List String)
  hosts : Option (List String)
  proxy : RouteProxy
  resource : String
  anonymous : Option Bool
deriving Repr, DecidableEq

/-- Errors thrown by the app: ConfigError from validation and index building,
TypeError from the JS runtime, and I/O errors from fs operations. -/
inductive JsError where
  | configError (msg : String) : JsError
  | typeError (msg : String) : JsError
  | ioError (msg : String) : JsError
deriving Repr, DecidableEq

instance {ε α : Type} [DecidableEq ε] [DecidableEq α] : DecidableEq (Except ε α) := by
  intro a b
  cases a <;> cases b
  case ok.ok x y =>
    exact if h : x = y then .isTrue (by rw [h]) else .isFalse (by simp [h])
  case error.error e1 e2 =>
    exact if h : e1 = e2 then .isTrue (by rw [h]) else .isFalse (by simp [h])
  all_goals exact .isFalse (by simp)

abbrev MethodMap := List (String × Bool)
abbrev ResourceMap := List (String × MethodMap)
abbrev GrantIndex := List (String × ResourceMap)
abbrev TokenIndex := List (String × String)
abbrev UserIndex := List (String × User)
abbrev RoleIndex := List (String × Role)

/-- App.authenticate: scan the configured auth headers in order; at the first
header name present on the request, return the token-index lookup of its value
when the value is non-empty, and undefined (none) when it is empty; when no
configured header is present, return undefined. -/
def authenticate (authHeaders : List String) (headers : List (String × String))
    (tokenIndex : TokenIndex) : Option String :=
  match authHeaders with
  | [] => none
  | h :: rest =>
    match alookup headers h with
    | some v => if v = "" then none else alookup tokenIndex v
    | none => authenticate rest headers tokenIndex

/-- Truthiness of `userIndex[user] && userIndex[user].admin` in App.authorize. -/
def adminTruthy (userIndex : UserIndex) (user : String) : Bool :=
  match alookup userIndex user with
  | some u => truthyB u.admin
  | none => false

/-- App.authorize: admin users short-circuit to allow; otherwise the nested
grant-index lookups decide, testing the wildcard entry before the per-method
entry. -/
def authorize (userIndex : UserIndex) (grantIndex : GrantIndex)
    (user resource method : String) : Bool :=
  if adminTruthy userIndex user then true
  else
    match alookup grantIndex user with
    | none => false
    | some rmap =>
      match alookup rmap resource with
      | none => false
      | some mmap =>
        if truthyB (alookup mmap "*") then true
        else truthyB (alookup mmap method)

/-- Method test of App.getRoute: `!route.methods || route.methods.indexOf(method) > -1`
(an empty methods array is truthy in JS, hence modelled as `some []`, which
matches no method). -/
def methodMatch (route : Route) (method : String) : Bool :=
  match route.methods with
  | none => true
  | some ms => ms.contains method

/-- Host test of App.getRoute: absent `hosts` matches anything, otherwise some
host pattern must match; `rmatch pat str` is the regex oracle standing for
`new RegExp(pat).test(str)`. -/
def hostMatch (rmatch : String → String → Bool) (route : Route) (host : String) : Bool :=
  match route.hosts with
  | none => true
  | some hs => hs.any (fun hp => rmatch hp host)

/-- Loop body of App.getRoute over the routes list. -/
def getRouteList (rmatch : String → String → Bool) (method pathStr host : String) :
    List Route → Option Route
  | [] => none
  | route :: rest =>
    if !methodMatch route method then getRouteList rmatch method pathStr host rest
    else if !hostMatch rmatch route host then getRouteList rmatch method pathStr host rest
    else if rmatch route.path pathStr then some route
    else getRouteList rmatch method pathStr host rest

/-- App.getRoute: a non-string Host header is replaced by the empty string,
then the routes list is scanned in order. -/
def getRoute (rmatch : String → String → Bool) (routes : List Route)
    (method pathStr : String) (host : Option String) : Option Route :=
  getRouteList rmatch method pathStr (host.getD "") routes

/-- Spec-worded route predicate for claim C3: the three tests a route must
satisfy (methods absent or containing the method, hosts absent or some host
regex matching, path regex matching). -/
def routeMatches (rmatch : String → String → Bool) (method pathStr host : String)
    (route : Route) : Bool :=
  methodMatch route method && hostMatch rmatch route host && rmatch route.path pathStr

/-- Spec-worded authenticator for claim C2: look up the value of the first
configured header present on the request; empty value means unauthenticated. -/
def authenticateSpec (authHeaders : List String) (headers : List (String × String))
    (tokenIndex : TokenIndex) : Option String :=
  match authHeaders.find? (fun h => (alookup headers h).isSome) with
  | none => none
  | some h =>
    match alookup headers h with
    | none => none
    | some v => if v = "" then none else alookup tokenIndex v

/-- Host-pattern loop of App.validateRoute: each host must be a non-empty
string compiling as a regex (`regexOk` is the compile oracle for `new RegExp`). -/
def validateHosts (regexOk : String → Bool) : List String → Except JsError Unit
  | [] => .ok ()
  | h :: rest =>
    if h.length = 0 then .error (.configError "host must be a non-empty string")
    else if !regexOk h then .error (.configError "Invalid regex for host")
    else validateHosts regexOk rest

/-- App.validateRoute. -/
def validateRoute (regexOk : String → Bool) (route : Route) : Except JsError Unit :=
  if route.path.length = 0 then .error (.configError "route.path must be a non-empty string")
  else if !regexOk route.path then .error (.configError "Invalid regex for route.path")
  else if route.proxy.target.length = 0 then
    .error (.configError "route.proxy.target must be a non-empty string")
  else
    match route.hosts with
    | none => .ok ()
    | some hs => validateHosts regexOk hs

/-- App.validateToken. -/
def validateToken (t : Token) : Except JsError Unit :=
  if t.token.length = 0 then .error (.configError "token.token must be a non-empty string")
  else if t.user.length = 0 then .error (.configError "token.user must be a non-empty string")
  else .ok ()

/-- Role-name loop of App.validateUser. -/
def validateRoleNames : List String → Except JsError Unit
  | [] => .ok ()
  | r :: rest =>
    if r.length = 0 then .error (.configError "user role name must be a non-empty string")
    else validateRoleNames rest

/-- App.validateUser: the `roles` field is only checked when present; absence
is accepted. -/
def validateUser (u : User) : Except JsError Unit :=
  if u.name.length = 0 then .error (.configError "user.name must be a non-empty string")
  else
    match u.roles with
    | none => .ok ()
    | some rs => validateRoleNames rs

/-- Grant loop of App.validateRole. -/
def validateGrants : List Grant → Except JsError Unit
  | [] => .ok ()
  | g :: rest =>
    if g.resource.length = 0 then .error (.configError "grant.resource must be a non-empty string")
    else validateGrants rest

/-- App.validateRole. -/
def validateRole (r : Role) : Except JsError Unit :=
  if r.name.length = 0 then .error (.configError "role.name must be a non-empty string")
  else validateGrants r.grants

/-- `routesObj.routes.forEach(route => this.validateRoute(route))`. -/
def validateRoutes (regexOk : String → Bool) : List Route → Except JsError Unit
  | [] => .ok ()
  | r :: rest =>
    match validateRoute regexOk r with
    | .error e => .error e
    | .ok _ => validateRoutes regexOk rest

/-- `usersObj.users.forEach(user => this.validateUser(user))`. -/
def validateUsers : List User → Except JsError Unit
  | [] => .ok ()
  | u :: rest =>
    match validateUser u with
    | .error e => .error e
    | .ok _ => validateUsers rest

/-- `rolesObj.roles.forEach(role => this.validateRole(role))`. -/
def validateRoles : List Role → Except JsError Unit
  | [] => .ok ()
  | r :: rest =>
    match validateRole r with
    | .error e => .error e
    | .ok _ => validateRoles rest

/-- `tokensObj.tokens.forEach(token => this.validateToken(token))`. -/
def validateTokens : List Token → Except JsError Unit
  | [] => .ok ()
  | t :: rest =>
    match validateToken t with
    | .error e => .error e
    | .ok _ => validateTokens rest

/-- Loop of App.getTokenIndex carrying the index built so far. -/
def getTokenIndexAux (index : TokenIndex) : List Token → Except JsError TokenIndex
  | [] => .ok index
  | t :: rest =>
    if (alookup index t.token).isSome then
      .error (.configError ("Duplicate token found for user " ++ t.user))
    else getTokenIndexAux (aset index t.token t.user) rest

/-- App.getTokenIndex: token string to user name, rejecting duplicate tokens. -/
def getTokenIndex (tokens : List Token) : Except JsError TokenIndex :=
  getTokenIndexAux [] tokens

/-- Loop of App.getRoleIndex carrying the index built so far. -/
def getRoleIndexAux (index : RoleIndex) : List Role → Except JsError RoleIndex
  | [] => .ok index
  | r :: rest =>
    if (alookup index r.name).isSome then
      .error (.configError ("Duplicate role name found for " ++ r.name))
    else getRoleIndexAux (aset index r.name r) rest

/-- App.getRoleIndex: role name to role record, rejecting duplicate names. -/
def getRoleIndex (roles : List Role) : Except JsError RoleIndex :=
  getRoleIndexAux [] roles

/-- Loop of App.getUserIndex carrying the index built so far. -/
def getUserIndexAux (index : UserIndex) : List User → Except JsError UserIndex
  | [] => .ok index
  | u :: rest =>
    if (alookup index u.name).isSome then
      .error (.configError ("Duplicate user name found for " ++ u.name))
    else getUserIndexAux (aset index u.name u) rest

/-- App.getUserIndex: user name to user record, rejecting duplicate names. -/
def getUserIndex (users : List User) : Except JsError UserIndex :=
  getUserIndexAux [] users

/-- One grant applied to a user's resource map in App.getGrantIndex: the
resource entry is created when absent (even when the methods list is empty),
then either each listed method or the wildcard entry is set. -/
def applyGrant (rmap : ResourceMap) (g : Grant) : ResourceMap :=
  let rmap1 := if (alookup rmap g.resource).isSome then rmap else aset rmap g.resource []
  let mmap := (alookup rmap1 g.resource).getD []
  let mmap1 :=
    match g.methods with
    | some ms => ms.foldl (fun acc m => aset acc m true) mmap
    | none => aset mmap "*" true
  aset rmap1 g.resource mmap1

/-- One role name applied to a user's resource map in App.getGrantIndex: an
unknown role name leaves the map unchanged. -/
def applyRole (roleIndex : RoleIndex) (rmap : ResourceMap) (roleName : String) : ResourceMap :=
  match alookup roleIndex roleName with
  | some role => role.grants.foldl applyGrant rmap
  | none => rmap

/-- The resource map App.getGrantIndex builds for one user from its roles list. -/
def grantsForUser (roleIndex : RoleIndex) (roles : List String) : ResourceMap :=
  roles.foldl (applyRole roleIndex) []

/-- Loop of App.getGrantIndex over the user index entries: admin users are
skipped; for the rest, `for (var roleName of user.roles)` throws a TypeError
when the `roles` field is absent (iterating undefined). -/
def getGrantIndexAux (roleIndex : RoleIndex) (index : GrantIndex) :
    List (String × User) → Except JsError GrantIndex
  | [] => .ok index
  | (userName, u) :: rest =>
    if truthyB u.admin then getGrantIndexAux roleIndex index rest
    else
      match u.roles with
      | none => .error (.typeError "user.roles is not iterable")
      | some rs => getGrantIndexAux roleIndex (aset index userName (grantsForUser roleIndex rs)) rest

/-- App.getGrantIndex. -/
def getGrantIndex (userIndex : UserIndex) (roleIndex : RoleIndex) : Except JsError GrantIndex :=
  getGrantIndexAux roleIndex [] userIndex

/-- ToInt32 of an integer (JS 32-bit signed wrap-around). -/
def toInt32 (x : Int) : Int := (x + 2 ^ 31) % 2 ^ 32 - 2 ^ 31

/-- Unsigned 32-bit pattern of an integer already in int32 range. -/
def uint32pat (x : Int) : Nat := (x % 2 ^ 32).toNat

/-- JS bitwise OR `a | b`: both operands pass through ToInt32, the 32-bit
patterns are or-ed, and the result is read back as a signed 32-bit value. -/
def jsBitOr (a b : Int) : Int :=
  toInt32 (Int.ofNat (Nat.lor (uint32pat (toInt32 a)) (uint32pat (toInt32 b))))

/-- The `metricsPort` option computed by App.defaults, which evaluates
`+env.METRICS_PORT | 8181`: the numeric value of METRICS_PORT (none models an
unset variable, whose coercion NaN becomes 0 under ToInt32) bitwise-ORed with
8181. -/
def metricsPort (envVal : Option Int) : Int := jsBitOr (envVal.getD 0) 8181

/-- Mutable fields of the App instance relevant to reloading and serving. -/
structure AppState where
  routes : Option (List Route)
  users : Option (List User)
  roles : Option (List Role)
  tokens : Option (List Token)
  tokenIndex : Option TokenIndex
  roleIndex : Option RoleIndex
  userIndex : Option UserIndex
  grantIndex : Option GrantIndex
  lastReloadTime : Option Nat
  lastReloadMTime : Option Nat
  lastReloadErrorTime : Option Nat
  isReloading : Bool
deriving Repr, DecidableEq

/-- Field values set by the App constructor. -/
def initialState : AppState :=
  { routes := none
    users := none
    roles := none
    tokens := none
    tokenIndex := none
    roleIndex := none
    userIndex := none
    grantIndex := none
    lastReloadTime := none
    lastReloadMTime := none
    lastReloadErrorTime := none
    isReloading := false }

/-- Outcome of the filesystem interactions of one reload attempt: whether each
`fs.open` succeeds, each handle's `stat().mtimeMs`, and the result of reading
and YAML-parsing each document including its top-level wrapper check. -/
structure ReloadFiles where
  routesOpenOk : Bool
  usersOpenOk : Bool
  rolesOpenOk : Bool
  tokensOpenOk : Bool
  routesMTime : Except JsError Nat
  usersMTime : Except JsError Nat
  rolesMTime : Except JsError Nat
  tokensMTime : Except JsError Nat
  routesDoc : Except JsError (List Route)
  usersDoc : Except JsError (List User)
  rolesDoc : Except JsError (List Role)
  tokensDoc : Except JsError (List Token)
deriving Repr, DecidableEq

/-- Which of the four configuration file handles are open. -/
structure HandleSet where
  routes : Bool
  users : Bool
  roles : Bool
  tokens : Bool
deriving Repr, DecidableEq

/-- No file handle open. -/
def noHandles : HandleSet := ⟨false, false, false, false⟩

/-- Result of one App.reloadConfig call: the resulting field values, the
handles still open afterwards, and the error escaping the call, if any. -/
structure ReloadOutcome where
  state : AppState
  openHandles : HandleSet
  thrown : Option JsError
deriving Repr, DecidableEq

/-- The `Math.max` over the four `stat().mtimeMs` values, with the stats
awaited in source order so the first failure wins. -/
def statMax (f : ReloadFiles) : Except JsError Nat :=
  match f.routesMTime with
  | .error e => .error e
  | .ok a =>
    match f.usersMTime with
    | .error e => .error e
    | .ok b =>
      match f.rolesMTime with
      | .error e => .error e
      | .ok c =>
        match f.tokensMTime with
        | .error e => .error e
        | .ok d => .ok (max (max (max a b) c) d)

/-- The local values computed by a fully successful reload body. -/
structure SnapFields where
  routes : List Route
  users : List User
  roles : List Role
  tokens : List Token
  tokenIndex : TokenIndex
  roleIndex : RoleIndex
  userIndex : UserIndex
  grantIndex : GrantIndex
deriving Repr, DecidableEq

/-- The parse/validate/index-build pipeline of App.reloadConfig, in source
order (routes, then users, roles, tokens, finally the grant index); the first
error aborts the attempt. -/
def buildSnap (regexOk : String → Bool) (f : ReloadFiles) : Except JsError SnapFields := do
  let routes ← f.routesDoc
  let _ ← validateRoutes regexOk routes
  let users ← f.usersDoc
  let _ ← validateUsers users
  let userIndex ← getUserIndex users
  let roles ← f.rolesDoc
  let _ ← validateRoles roles
  let roleIndex ← getRoleIndex roles
  let tokens ← f.tokensDoc
  let _ ← validateTokens tokens
  let tokenIndex ← getTokenIndex tokens
  let grantIndex ← getGrantIndex userIndex roleIndex
  pure ⟨routes, users, roles, tokens, tokenIndex, roleIndex, userIndex, grantIndex⟩

/-- The block of eight assignments publishing a successful reload's values. -/
def applySnap (s : AppState) (snap : SnapFields) : AppState :=
  { s with
    routes := some snap.routes
    users := some snap.users
    roles := some snap.roles
    tokens := some snap.tokens
    tokenIndex := some snap.tokenIndex
    roleIndex := some snap.roleIndex
    userIndex := some snap.userIndex
    grantIndex := some snap.grantIndex }

/-- The try block of App.reloadConfig: stat all four handles, return early
when the recorded mtime is truthy and equals the new maximum, otherwise record
the new maximum BEFORE parsing and run the pipeline.  An error carries the
field state at throw time for the catch clause. -/
def tryBody (regexOk : String → Bool) (s : AppState) (f : ReloadFiles) :
    Except (JsError × AppState) AppState :=
  match statMax f with
  | .error e => .error (e, s)
  | .ok maxM =>
    if truthyNum s.lastReloadMTime && (s.lastReloadMTime == some maxM) then .ok s
    else
      let s1 := { s with lastReloadMTime := some maxM }
      match buildSnap regexOk f with
      | .error e => .error (e, s1)
      | .ok snap => .ok (applySnap s1 snap)

/-- App.reloadConfig: sets `isReloading`, opens the four files (OUTSIDE the
try/finally, so an open failure leaks the handles opened so far and leaves
`isReloading` set), then runs the try body; the catch records the error time
and rethrows only when no reload ever completed; the finally closes the four
handles, clears `isReloading`, and stamps `lastReloadTime`. -/
def reloadConfig (now : Nat) (regexOk : String → Bool) (s0 : AppState) (f : ReloadFiles) :
    ReloadOutcome :=
  let s := { s0 with isReloading := true }
  if !f.routesOpenOk then
    { state := s, openHandles := noHandles, thrown := some (.ioError "open routesFile") }
  else if !f.usersOpenOk then
    { state := s
      openHandles := ⟨true, false, false, false⟩
      thrown := some (.ioError "open usersFile") }
  else if !f.rolesOpenOk then
    { state := s
      openHandles := ⟨true, true, false, false⟩
      thrown := some (.ioError "open rolesFile") }
  else if !f.tokensOpenOk then
    { state := s
      openHandles := ⟨true, true, true, false⟩
      thrown := some (.ioError "open tokensFile") }
  else
    let afterCatch :=
      match tryBody regexOk s f with
      | .ok s1 => (s1, (none : Option JsError))
      | .error (e, sE) =>
        let sC := { sE with lastReloadErrorTime := some now }
        if truthyNum sE.lastReloadTime then (sC, none) else (sC, some e)
    let s2 :=
      { afterCatch.1 with
        isReloading := false
        lastReloadTime := some now
        lastReloadErrorTime := none }
    { state := s2, openHandles := noHandles, thrown := afterCatch.2 }

/-- The user record with its roles filtered to the names known to the role
index (spec-worded helper for claim C7). -/
def knownRolesOnly (roleIndex : RoleIndex) (u : User) : User :=
  { u with roles := u.roles.map (fun rs => rs.filter (fun n => (alookup roleIndex n).isSome)) }

/-- Regex-compile oracle that accepts every pattern, for concrete runs. -/
def regexAll : String → Bool := fun _ => true

/-- Concrete route used by the reload scenarios. -/
def routeA : Route :=
  { path := "^/"
    methods := none
    hosts := none
    proxy := ⟨"http://upstream"⟩
    resource := "api"
    anonymous := none }

/-- Concrete non-admin user with one role. -/
def johnUser : User := { name := "john", roles := some ["reader"], admin := none }

/-- Concrete non-admin user whose optional `roles` field is absent. -/
def bobUser : User := { name := "bob", roles := none, admin := none }

/-- Concrete role granting GET on resource api. -/
def readerRole : Role := { name := "reader", grants := [⟨"api", some ["GET"]⟩] }

/-- Concrete token for john. -/
def tokenT1 : Token := ⟨"T1", "john"⟩

/-- Concrete token for jeff. -/
def tokenT3 : Token := ⟨"T3", "jeff"⟩

/-- Reload input: all four files open and stat fine at mtime 5, all four
documents parse and validate. -/
def filesOk1 : ReloadFiles :=
  { routesOpenOk := true
    usersOpenOk := true
    rolesOpenOk := true
    tokensOpenOk := true
    routesMTime := .ok 5
    usersMTime := .ok 5
    rolesMTime := .ok 5
    tokensMTime := .ok 5
    routesDoc := .ok [routeA]
    usersDoc := .ok [johnUser]
    rolesDoc := .ok [readerRole]
    tokensDoc := .ok [tokenT1] }

/-- Reload input: files changed (mtime 7) but routes.yaml no longer parses. -/
def filesBad2 : ReloadFiles :=
  { filesOk1 with
    routesMTime := .ok 7
    usersMTime := .ok 7
    rolesMTime := .ok 7
    tokensMTime := .ok 7
    routesDoc := .error (.configError "missing key routes or not array") }

/-- Reload input: contents fixed (routes parses again, a new token T3 added)
while every mtime still reads 7, unchanged since the failed attempt. -/
def filesFixed3 : ReloadFiles :=
  { filesOk1 with
    routesMTime := .ok 7
    usersMTime := .ok 7
    rolesMTime := .ok 7
    tokensMTime := .ok 7
    tokensDoc := .ok [tokenT1, tokenT3] }

/-- Reload input: the same fixed contents as filesFixed3, with mtimes moved to 9. -/
def filesOk4 : ReloadFiles :=
  { filesFixed3 with
    routesMTime := .ok 9
    usersMTime := .ok 9
    rolesMTime := .ok 9
    tokensMTime := .ok 9 }

/-- Reload input: the users file fails to open after the routes file was opened. -/
def filesOpenFail : ReloadFiles := { filesOk1 with usersOpenOk := false }

/-- Reload input: all four files carry mtimeMs 0 (epoch). -/
def filesZeroA : ReloadFiles :=
  { filesOk1 with
    routesMTime := .ok 0
    usersMTime := .ok 0
    rolesMTime := .ok 0
    tokensMTime := .ok 0 }

/-- Reload input: mtimes still 0 but tokens.yaml now holds an extra token. -/
def filesZeroB : ReloadFiles := { filesZeroA with tokensDoc := .ok [tokenT1, tokenT3] }

/-- The snapshot fields the pipeline produces from the fixed contents. -/
def snap4 : SnapFields :=
  { routes := [routeA]
    users := [johnUser]
    roles := [readerRole]
    tokens := [tokenT1, tokenT3]
    tokenIndex := [("T1", "john"), ("T3", "jeff")]
    roleIndex := [("reader", readerRole)]
    userIndex := [("john", johnUser)]
    grantIndex := [("john", [("api", [("GET", true)])])] }

/-- App state after the initial successful reload of filesOk1. -/
def state1 : AppState := (reloadConfig 100 regexAll initialState filesOk1).state

/-- App state after the subsequent failed reload of filesBad2. -/
def state2 : AppState := (reloadConfig 200 regexAll state1 filesBad2).state

/-- App state after an initial successful reload of files whose mtimes are 0. -/
def stateZ : AppState := (reloadConfig 100 regexAll initialState filesZeroA).state

/-- Concrete user index whose single user lists one known and one unknown role. -/
def mixedUserIndex : UserIndex :=
  [("john", { name := "john", roles := some ["reader", "ghostrole"], admin := none })]

/-- Concrete role index knowing only the reader role. -/
def readerRoleIndex : RoleIndex := [("reader", readerRole)]

/-- Truthiness of an optional boolean is exactly the presence of `true`. -/
theorem truthyB_eq_true (b : Option Bool) : truthyB b = true ↔ b = some true := by
  cases b <;> simp [truthyB]

/-- The admin short-circuit test of App.authorize holds exactly when the user
index has the user with a true admin flag. -/
theorem adminTruthy_iff (userIndex : UserIndex) (u : String) :
    adminTruthy userIndex u = true ↔
      ∃ rec, alookup userIndex u = some rec ∧ rec.admin = some true := by
  unfold adminTruthy
  cases h : alookup userIndex u with
  | none => simp
  | some rec => simp [truthyB_eq_true]

/-- Claim C1: App.authorize allows a request exactly when either the user is a
declared admin (regardless of the grant index), or otherwise the user has a
grant-index entry, that entry has the resource, and the resource's map holds
the wildcard entry or the per-method entry (the code tests the wildcard first;
since both tests are mere truthiness of stored `true` values, the disjunction
captures the decision). -/
theorem c1_authorize_characterization (userIndex : UserIndex) (grantIndex : GrantIndex)
    (u r m : String) :
    authorize userIndex grantIndex u r m = true ↔
      ((∃ rec, alookup userIndex u = some rec ∧ rec.admin = some true) ∨
       ((¬ ∃ rec, alookup userIndex u = some rec ∧ rec.admin = some true) ∧
        ∃ rmap, alookup grantIndex u = some rmap ∧
          ∃ mmap, alookup rmap r = some mmap ∧
            (alookup mmap "*" = some true ∨ alookup mmap m = some true))) := by
  by_cases hA : adminTruthy userIndex u = true
  · have hx := (adminTruthy_iff userIndex u).mp hA
    simp [authorize, hA, hx]
  · have hA2 : ¬ ∃ rec, alookup userIndex u = some rec ∧ rec.admin = some true :=
      fun hx => hA ((adminTruthy_iff userIndex u).mpr hx)
    have hA3 : adminTruthy userIndex u = false := by
      cases hb : adminTruthy userIndex u
      · rfl
      · exact absurd hb hA
    cases hG : alookup grantIndex u with
    | none => simp [authorize, hA3, hG, hA2]
    | some rmap =>
      cases hR : alookup rmap r with
      | none => simp [authorize, hA3, hG, hR, hA2]
      | some mmap => simp [authorize, hA3, hG, hR, hA2, truthyB_eq_true]

/-- Claim C2: App.authenticate returns exactly the outcome determined by the
first configured auth header present on the request — the token-index lookup
of its value when non-empty, unauthenticated when empty — and never consults
later configured headers once one is present. -/
theorem c2_authenticate_first_present_header (authHeaders : List String)
    (headers : List (String × String)) (tokenIndex : TokenIndex) :
    authenticate authHeaders headers tokenIndex =
      authenticateSpec authHeaders headers tokenIndex := by
  induction authHeaders with
  | nil => rfl
  | cons h rest ih =>
    cases hv : alookup headers h with
    | some v => simp [authenticate, authenticateSpec, List.find?, hv]
    | none =>
      simp only [authenticate, authenticateSpec, List.find?, hv, Option.isSome_none] at ih ⊢
      exact ih

/-- Claim C3: App.getRoute returns the first route in declared order whose
method test, host test and path test all pass (a missing Host header being
matched as the empty string), and none when no route passes. -/
theorem c3_getRoute_first_match (rmatch : String → String → Bool) (routes : List Route)
    (method pathStr : String) (host : Option String) :
    getRoute rmatch routes method pathStr host =
      routes.find? (routeMatches rmatch method pathStr (host.getD "")) := by
  unfold getRoute
  induction routes with
  | nil => rfl
  | cons route rest ih =>
    by_cases hm : methodMatch route method = true
    · by_cases hh : hostMatch rmatch route (host.getD "") = true
      · by_cases hp : rmatch route.path pathStr = true
        · simp [getRouteList, List.find?, routeMatches, hm, hh, hp]
        · simp [getRouteList, List.find?, routeMatches, hm, hh, hp, ih]
      · simp [getRouteList, List.find?, routeMatches, hm, hh, ih]
    · simp [getRouteList, List.find?, routeMatches, hm, ih]

/-- Claim C4 (code bug): a user record without a `roles` field passes
App.validateUser, yet App.getGrantIndex throws a TypeError on that user
(iterating the undefined `user.roles`) instead of assigning no grants. -/
theorem c4_missing_roles_field_crashes_grant_index :
    validateUser bobUser = .ok () ∧
    getGrantIndex [("bob", bobUser)] [] = .error (.typeError "user.roles is not iterable") := by
  constructor
  · decide
  · decide

/-- Claim C9 (code bug): App.defaults computes `+env.METRICS_PORT | 8181` with
the bitwise OR, so an unset variable still yields 8181, but a numeric value
such as 9090 yields 9090 | 8181 = 16375 instead of 9090. -/
theorem c9_metrics_port_uses_bitwise_or :
    metricsPort none = 8181 ∧ metricsPort (some 9090) = 16375 ∧ (16375 : Int) ≠ 9090 := by
  refine ⟨by decide, by decide, by decide⟩

/-- Claim C10: for a user name found in neither the user index nor the grant
index, App.authorize is total and denies: both lookups miss and the function
returns false for every resource and method. -/
theorem c10_undeclared_user_denied (userIndex : UserIndex) (grantIndex : GrantIndex)
    (u r m : String) (h1 : alookup userIndex u = none) (h2 : alookup grantIndex u = none) :
    authorize userIndex grantIndex u r m = false := by
  unfold authorize adminTruthy
  rw [h1, h2]
  simp

/-- Witness for claim C10 at a concrete input: the name ghost is declared
nowhere and every lookup misses, so authorization is denied. -/
theorem c10_witness :
    alookup ([] : UserIndex) "ghost" = none ∧
    alookup ([] : GrantIndex) "ghost" = none ∧
    authorize [] [] "ghost" "api" "GET" = false :=
  ⟨rfl, rfl, c10_undeclared_user_denied [] [] "ghost" "api" "GET" rfl rfl⟩

/-- Shape of App.reloadConfig once all four opens succeed: the try body runs,
the catch swallows the error exactly when a reload had ever completed, and the
finally closes the handles, clears the flag and stamps the reload time. -/
theorem reloadConfig_eq_of_opens (now : Nat) (regexOk : String → Bool) (s : AppState)
    (f : ReloadFiles) (h1 : f.routesOpenOk = true) (h2 : f.usersOpenOk = true)
    (h3 : f.rolesOpenOk = true) (h4 : f.tokensOpenOk = true) :
    reloadConfig now regexOk s f =
      match tryBody regexOk { s with isReloading := true } f with
      | .ok s1 =>
        { state :=
            { s1 with
              isReloading := false
              lastReloadTime := some now
              lastReloadErrorTime := none }
          openHandles := noHandles
          thrown := none }
      | .error (e, sE) =>
        { state :=
            { sE with
              isReloading := false
              lastReloadTime := some now
              lastReloadErrorTime := none }
          openHandles := noHandles
          thrown := if truthyNum sE.lastReloadTime then none else some e } := by
  unfold reloadConfig
  rw [h1, h2, h3, h4]
  cases htb : tryBody regexOk { s with isReloading := true } f with
  | ok s1 => simp [htb]
  | error p =>
    obtain ⟨e, sE⟩ := p
    by_cases hT : truthyNum sE.lastReloadTime = true
    · simp [htb, hT]
    · simp [htb, hT]

/-- The try body returns its input state unchanged when the recorded mtime is
truthy and equals the new maximum (the early-return gate). -/
theorem tryBody_gate (regexOk : String → Bool) (s : AppState) (f : ReloadFiles) (maxM : Nat)
    (hStat : statMax f = .ok maxM)
    (hGate : (truthyNum s.lastReloadMTime && (s.lastReloadMTime == some maxM)) = true) :
    tryBody regexOk s f = .ok s := by
  simp only [tryBody, hStat]
  rw [hGate]
  simp

/-- When the gate does not fire and the pipeline fails, the try body throws
with only the recorded mtime updated — the update happens BEFORE parsing. -/
theorem tryBody_build_error (regexOk : String → Bool) (s : AppState) (f : ReloadFiles)
    (maxM : Nat) (e : JsError) (hStat : statMax f = .ok maxM)
    (hGate : (truthyNum s.lastReloadMTime && (s.lastReloadMTime == some maxM)) = false)
    (hBuild : buildSnap regexOk f = .error e) :
    tryBody regexOk s f = .error (e, { s with lastReloadMTime := some maxM }) := by
  simp only [tryBody, hStat]
  rw [hGate]
  simp [hBuild]

/-- When the gate does not fire and the pipeline succeeds, the try body
records the mtime and publishes the eight snapshot fields. -/
theorem tryBody_build_ok (regexOk : String → Bool) (s : AppState) (f : ReloadFiles)
    (maxM : Nat) (snap : SnapFields) (hStat : statMax f = .ok maxM)
    (hGate : (truthyNum s.lastReloadMTime && (s.lastReloadMTime == some maxM)) = false)
    (hBuild : buildSnap regexOk f = .ok snap) :
    tryBody regexOk s f = .ok (applySnap { s with lastReloadMTime := some maxM } snap) := by
  simp only [tryBody, hStat]
  rw [hGate]
  simp [hBuild]

/-- Claim C6 (amended): once all four configuration files have been opened,
every exit path of a reload attempt — success, stat failure, parse failure,
validation failure, or index-build failure — closes all four handles and
clears the isReloading flag. -/
theorem c6_cleanup_after_successful_opens (now : Nat) (regexOk : String → Bool)
    (s : AppState) (f : ReloadFiles) (h1 : f.routesOpenOk = true) (h2 : f.usersOpenOk = true)
    (h3 : f.rolesOpenOk = true) (h4 : f.tokensOpenOk = true) :
    (reloadConfig now regexOk s f).openHandles = noHandles ∧
    (reloadConfig now regexOk s f).state.isReloading = false := by
  rw [reloadConfig_eq_of_opens now regexOk s f h1 h2 h3 h4]
  cases htb : tryBody regexOk { s with isReloading := true } f with
  | ok s1 => exact ⟨rfl, rfl⟩
  | error p =>
    obtain ⟨e, sE⟩ := p
    exact ⟨rfl, rfl⟩

/-- Witness for claim C6 (amended) at a concrete input: a fully successful
reload closes every handle and clears the flag. -/
theorem c6_witness :
    filesOk1.routesOpenOk = true ∧
    (reloadConfig 100 regexAll initialState filesOk1).openHandles = noHandles ∧
    (reloadConfig 100 regexAll initialState filesOk1).state.isReloading = false :=
  ⟨rfl,
    (c6_cleanup_after_successful_opens 100 regexAll initialState filesOk1 rfl rfl rfl rfl).1,
    (c6_cleanup_after_successful_opens 100 regexAll initialState filesOk1 rfl rfl rfl rfl).2⟩

/-- Counterexample to claim C6 as stated: the four opens run before the
try/finally, so when the users file fails to open the routes handle stays open
and isReloading stays true — a file open failure is an exit path without
cleanup. -/
theorem c6_counterexample :
    (reloadConfig 100 regexAll initialState filesOpenFail).openHandles.routes = true ∧
    (reloadConfig 100 regexAll initialState filesOpenFail).state.isReloading = true := by
  constructor
  · decide
  · decide

/-- Claim C8 (amended): a reload tick whose max(mtime) equals the non-zero
recorded source mtime leaves routes, tokenIndex, userIndex, roleIndex and
grantIndex exactly as they were, records the same mtime, and throws nothing;
in particular a second reload right after a successful one with unchanged
files is a no-op. -/
theorem c8_unchanged_mtime_is_noop (now : Nat) (regexOk : String → Bool)
    (s : AppState) (f : ReloadFiles) (m : Nat)
    (h1 : f.routesOpenOk = true) (h2 : f.usersOpenOk = true)
    (h3 : f.rolesOpenOk = true) (h4 : f.tokensOpenOk = true)
    (hm : s.lastReloadMTime = some m) (hm0 : m ≠ 0)
    (hStat : statMax f = .ok m) :
    (reloadConfig now regexOk s f).state.routes = s.routes ∧
    (reloadConfig now regexOk s f).state.tokenIndex = s.tokenIndex ∧
    (reloadConfig now regexOk s f).state.userIndex = s.userIndex ∧
    (reloadConfig now regexOk s f).state.roleIndex = s.roleIndex ∧
    (reloadConfig now regexOk s f).state.grantIndex = s.grantIndex ∧
    (reloadConfig now regexOk s f).state.lastReloadMTime = s.lastReloadMTime ∧
    (reloadConfig now regexOk s f).thrown = none := by
  have hGate : (truthyNum ({ s with isReloading := true }).lastReloadMTime &&
      (({ s with isReloading := true }).lastReloadMTime == some m)) = true := by
    simp [hm, truthyNum, hm0]
  rw [reloadConfig_eq_of_opens now regexOk s f h1 h2 h3 h4,
    tryBody_gate regexOk { s with isReloading := true } f m hStat hGate]
  exact ⟨rfl, rfl, rfl, rfl, rfl, by simp [hm], rfl⟩

/-- Witness for claim C8 (amended) at a concrete input: replaying the very
files of the successful reload (mtime still 5) changes no snapshot field. -/
theorem c8_witness :
    state1.lastReloadMTime = some 5 ∧
    (reloadConfig 300 regexAll state1 filesOk1).state.tokenIndex = state1.tokenIndex ∧
    (reloadConfig 300 regexAll state1 filesOk1).thrown = none :=
  ⟨by decide,
    (c8_unchanged_mtime_is_noop 300 regexAll state1 filesOk1 5 rfl rfl rfl rfl (by decide)
      (by decide) (by decide)).2.1,
    (c8_unchanged_mtime_is_noop 300 regexAll state1 filesOk1 5 rfl rfl rfl rfl (by decide)
      (by decide) (by decide)).2.2.2.2.2.2⟩

/-- Counterexample to claim C8 as stated: the gate tests JS truthiness of the
recorded mtime, so a recorded mtimeMs of 0 (the epoch) never matches; a tick
whose max(mtime) equals the recorded 0 re-runs the pipeline and here installs
a different token index. -/
theorem c8_counterexample :
    stateZ.lastReloadMTime = some 0 ∧
    statMax filesZeroB = .ok 0 ∧
    (reloadConfig 200 regexAll stateZ filesZeroB).state.tokenIndex ≠ stateZ.tokenIndex := by
  refine ⟨by decide, by decide, by decide⟩

/-- Claim C5 (amended): when the parse/validate/index-build of a reload fails
while a prior snapshot exists, nothing is thrown and the five snapshot fields
survive, but the failed attempt has already recorded the new max mtime; a
subsequent tick re-runs the pipeline (and here publishes the new snapshot)
when its max mtime differs from that recorded value. -/
theorem c5_failed_reload_preserved_retry_needs_new_mtime
    (now now2 : Nat) (regexOk : String → Bool) (s : AppState) (f f2 : ReloadFiles)
    (e : JsError) (mt mt2 : Nat) (snap : SnapFields)
    (hOpen1 : f.routesOpenOk = true) (hOpen2 : f.usersOpenOk = true)
    (hOpen3 : f.rolesOpenOk = true) (hOpen4 : f.tokensOpenOk = true)
    (hStat : statMax f = .ok mt)
    (hGate : (truthyNum s.lastReloadMTime && (s.lastReloadMTime == some mt)) = false)
    (hBuild : buildSnap regexOk f = .error e)
    (hPrior : truthyNum s.lastReloadTime = true)
    (g1 : f2.routesOpenOk = true) (g2 : f2.usersOpenOk = true)
    (g3 : f2.rolesOpenOk = true) (g4 : f2.tokensOpenOk = true)
    (hStat2 : statMax f2 = .ok mt2) (hNe : mt2 ≠ mt)
    (hBuild2 : buildSnap regexOk f2 = .ok snap) :
    (reloadConfig now regexOk s f).thrown = none ∧
    (reloadConfig now regexOk s f).state.routes = s.routes ∧
    (reloadConfig now regexOk s f).state.tokenIndex = s.tokenIndex ∧
    (reloadConfig now regexOk s f).state.userIndex = s.userIndex ∧
    (reloadConfig now regexOk s f).state.roleIndex = s.roleIndex ∧
    (reloadConfig now regexOk s f).state.grantIndex = s.grantIndex ∧
    (reloadConfig now regexOk s f).state.lastReloadMTime = some mt ∧
    (reloadConfig now2 regexOk (reloadConfig now regexOk s f).state f2).state.tokenIndex
      = some snap.tokenIndex ∧
    (reloadConfig now2 regexOk (reloadConfig now regexOk s f).state f2).state.routes
      = some snap.routes := by
  have hGate1 : (truthyNum ({ s with isReloading := true }).lastReloadMTime &&
      (({ s with isReloading := true }).lastReloadMTime == some mt)) = false := hGate
  have ho1 : reloadConfig now regexOk s f =
      { state :=
          { s with
            isReloading := false
            lastReloadMTime := some mt
            lastReloadTime := some now
            lastReloadErrorTime := none }
        openHandles := noHandles
        thrown := none } := by
    rw [reloadConfig_eq_of_opens now regexOk s f hOpen1 hOpen2 hOpen3 hOpen4,
      tryBody_build_error regexOk { s with isReloading := true } f mt e hStat hGate1 hBuild]
    simp [hPrior]
  have hGate2 : (truthyNum (some mt) && ((some mt : Option Nat) == some mt2)) = false := by
    have : ((some mt : Option Nat) == some mt2) = false := by
      simp [hNe.symm]
    rw [this, Bool.and_false]
  rw [ho1]
  refine ⟨rfl, rfl, rfl, rfl, rfl, rfl, rfl, ?_, ?_⟩
  · rw [reloadConfig_eq_of_opens now2 regexOk _ f2 g1 g2 g3 g4,
      tryBody_build_ok regexOk _ f2 mt2 snap hStat2 hGate2 hBuild2]
    rfl
  · rw [reloadConfig_eq_of_opens now2 regexOk _ f2 g1 g2 g3 g4,
      tryBody_build_ok regexOk _ f2 mt2 snap hStat2 hGate2 hBuild2]
    rfl

/-- Witness for claim C5 (amended) at concrete inputs: the failed reload of
filesBad2 keeps the snapshot of state1, and the later tick on filesOk4, whose
mtime 9 differs from the recorded 7, publishes the new token index. -/
theorem c5_witness :
    (reloadConfig 200 regexAll state1 filesBad2).state.tokenIndex = state1.tokenIndex ∧
    (reloadConfig 300 regexAll (reloadConfig 200 regexAll state1 filesBad2).state
      filesOk4).state.tokenIndex = some snap4.tokenIndex :=
  ⟨(c5_failed_reload_preserved_retry_needs_new_mtime 200 300 regexAll state1 filesBad2
      filesOk4 (.configError "missing key routes or not array") 7 9 snap4
      rfl rfl rfl rfl (by decide) (by decide) (by decide) (by decide)
      rfl rfl rfl rfl (by decide) (by decide) (by decide)).2.2.1,
   (c5_failed_reload_preserved_retry_needs_new_mtime 200 300 regexAll state1 filesBad2
      filesOk4 (.configError "missing key routes or not array") 7 9 snap4
      rfl rfl rfl rfl (by decide) (by decide) (by decide) (by decide)
      rfl rfl rfl rfl (by decide) (by decide) (by decide)).2.2.2.2.2.2.2.1⟩

/-- Counterexample to claim C5 as stated: after the failed reload (recorded
mtime 7), a tick whose four mtimes still read 7 does NOT retry the
parse/validate/index-build — the fixed contents would build snap4 with token
T3, yet the served token index keeps only T1. -/
theorem c5_counterexample :
    buildSnap regexAll filesFixed3 = .ok snap4 ∧
    statMax filesFixed3 = .ok 7 ∧
    state2.lastReloadMTime = some 7 ∧
    (reloadConfig 300 regexAll state2 filesFixed3).state.tokenIndex = some [("T1", "john")] ∧
    some [("T1", "john")] ≠ some snap4.tokenIndex := by
  refine ⟨by decide, by decide, by decide, by decide, by decide⟩

/-- A role name missing from the role index contributes nothing to a user's
resource map. -/
theorem applyRole_unknown (roleIndex : RoleIndex) (rmap : ResourceMap) (n : String)
    (h : alookup roleIndex n = none) : applyRole roleIndex rmap n = rmap := by
  unfold applyRole
  rw [h]

/-- Folding the roles of a user over the grant builder equals folding only the
role names known to the role index. -/
theorem foldl_applyRole_filter (roleIndex : RoleIndex) (rs : List String) :
    ∀ acc : ResourceMap,
      rs.foldl (applyRole roleIndex) acc =
        (rs.filter (fun n => (alookup roleIndex n).isSome)).foldl (applyRole roleIndex) acc := by
  induction rs with
  | nil => intro acc; rfl
  | cons n rest ih =>
    intro acc
    cases hn : alookup roleIndex n with
    | none =>
      simp only [List.foldl_cons, List.filter_cons, hn, Option.isSome_none]
      rw [applyRole_unknown roleIndex acc n hn]
      exact ih acc
    | some role =>
      simp only [List.foldl_cons, List.filter_cons, hn, Option.isSome_some]
      exact ih (applyRole roleIndex acc n)

/-- The resource map built for a user is unchanged by dropping the role names
unknown to the role index. -/
theorem grantsForUser_filter (roleIndex : RoleIndex) (rs : List String) :
    grantsForUser roleIndex rs =
      grantsForUser roleIndex (rs.filter (fun n => (alookup roleIndex n).isSome)) :=
  foldl_applyRole_filter roleIndex rs []

/-- Loop invariant for claim C7 over the entries of the user index. -/
theorem getGrantIndexAux_filter (roleIndex : RoleIndex) (entries : List (String × User)) :
    ∀ index : GrantIndex,
      (∀ p ∈ entries, truthyB (p.2).admin = false → (p.2).roles.isSome = true) →
      (getGrantIndexAux roleIndex index entries).isOk = true ∧
      getGrantIndexAux roleIndex index entries =
        getGrantIndexAux roleIndex index
          (entries.map (fun p => (p.1, knownRolesOnly roleIndex p.2))) := by
  induction entries with
  | nil => intro index _; exact ⟨rfl, rfl⟩
  | cons p rest ih =>
    intro index h
    obtain ⟨userName, u⟩ := p
    have hrest : ∀ q ∈ rest, truthyB (q.2).admin = false → (q.2).roles.isSome = true :=
      fun q hq => h q (List.mem_cons_of_mem _ hq)
    by_cases hAdmin : truthyB u.admin = true
    · have hAdmin2 : truthyB (knownRolesOnly roleIndex u).admin = true := hAdmin
      simp only [List.map_cons, getGrantIndexAux, hAdmin, hAdmin2, if_true]
      exact ih index hrest
    · have hAdmin1 : truthyB u.admin = false := by
        cases hb : truthyB u.admin
        · rfl
        · exact absurd hb hAdmin
      have hroles : u.roles.isSome = true :=
        h ⟨userName, u⟩ (List.mem_cons_self _ _) hAdmin1
      obtain ⟨rs, hrs⟩ := Option.isSome_iff_exists.mp hroles
      have hknown : (knownRolesOnly roleIndex u).roles =
          some (rs.filter (fun n => (alookup roleIndex n).isSome)) := by
        simp [knownRolesOnly, hrs]
      have hAdmin2 : truthyB (knownRolesOnly roleIndex u).admin = false := hAdmin1
      simp only [List.map_cons, getGrantIndexAux, hAdmin, hAdmin2, hrs, hknown,
        Bool.false_eq_true, if_false]
      rw [← grantsForUser_filter]
      exact ih (aset index userName (grantsForUser roleIndex rs)) hrest

/-- Claim C7: when every non-admin user carries a roles list, building the
grant index succeeds, and replacing each user's roles by only the names known
to the role index changes nothing — an unknown role name contributes no
grants and raises no error. -/
theorem c7_unknown_roles_ignored (userIndex : UserIndex) (roleIndex : RoleIndex)
    (h : ∀ p ∈ userIndex, truthyB (p.2).admin = false → (p.2).roles.isSome = true) :
    (getGrantIndex userIndex roleIndex).isOk = true ∧
    getGrantIndex userIndex roleIndex =
      getGrantIndex (userIndex.map (fun p => (p.1, knownRolesOnly roleIndex p.2)))
        roleIndex :=
  getGrantIndexAux_filter roleIndex userIndex [] h

/-- Witness for claim C7 at a concrete input: john lists the known role reader
and the unknown role ghostrole; the build succeeds and equals the build with
ghostrole dropped. -/
theorem c7_witness :
    (∀ p ∈ mixedUserIndex, truthyB (p.2).admin = false → (p.2).roles.isSome = true) ∧
    (getGrantIndex mixedUserIndex readerRoleIndex).isOk = true ∧
    getGrantIndex mixedUserIndex readerRoleIndex =
      getGrantIndex (mixedUserIndex.map
        (fun p => (p.1, knownRolesOnly readerRoleIndex p.2))) readerRoleIndex :=
  ⟨by decide, (c7_unknown_roles_ignored mixedUserIndex readerRoleIndex (by decide)).1,
    (c7_unknown_roles_ignored mixedUserIndex readerRoleIndex (by decide)).2⟩

end AuthProxy

